import Mathlib

/-!
# Shallow embedding of the store backend (`src/backend/server.py`)

The backend is a FastAPI application over MongoDB collections `users`,
`products`, `cart_items`, `orders`.  We embed the durable state as a
structure of lists of documents (MongoDB natural order = list order), and
each route handler as a pure function on that state.

Modelling conventions, all faithful to the source:
* `find_one(filter)` is `List.find?` (first document matching the filter);
* `insert_one` appends at the end; `insert_many` appends the batch;
* `update_one(filter, $set)` updates the first matching document and
  reports `matched_count` (0 or 1); `delete_one` removes the first match
  and reports `deleted_count`; `delete_many(filter)` removes every match;
* `find(filter).to_list(1000)` is `filter` followed by `take 1000`;
* an `HTTPException` raised before any write is an `Except.error` carrying
  the status code and detail string (the state is unchanged — the handler
  performed only reads up to that point);
* `datetime.utcnow()` and `str(uuid.uuid4())` are impure inputs, passed in
  as explicit `now` / fresh-id arguments;
* passlib's bcrypt `hash` / `verify` and the JWT signer are external
  libraries: they enter as function parameters, and an issued access token
  is modelled by its `sub` claim (the user id it is bound to) together
  with the literal `token_type` string — the only facts the handlers
  themselves establish about it;
* `float` prices are modelled as `Rat`: the handlers never perform
  arithmetic on prices (totals are client-submitted and stored verbatim),
  so only storage and equality of these values matter;
* Mongo's `$regex` with `$options: "i"` is modelled by a small regex
  matcher covering the constructs exercised here (literal characters and
  the `.` metacharacter, unanchored, case-insensitive, `.` not matching a
  newline — PCRE defaults).
-/

/-- A document of the `users` collection (`User` model, `password` never stored). -/
structure UserDoc where
  id : String
  email : String
  full_name : String
  hashed_password : String
  is_active : Bool
  created_at : Nat
deriving DecidableEq, Repr

/-- A document of the `products` collection (`Product` model). -/
structure ProductDoc where
  id : String
  name : String
  description : String
  price : Rat
  image_url : String
  category : String
  stock : Int
  created_at : Nat
deriving DecidableEq, Repr

/-- A document of the `cart_items` collection (`CartItem` model). -/
structure CartItemDoc where
  id : String
  user_id : String
  product_id : String
  quantity : Int
  created_at : Nat
deriving DecidableEq, Repr

/-- Opaque JSON-ish dictionaries (order line items, shipping address):
the handlers pass them through verbatim, so an association list of
strings is an adequate carrier. -/
abbrev Dict := List (String × String)

/-- A document of the `orders` collection (`Order` model). -/
structure OrderDoc where
  id : String
  user_id : String
  items : List Dict
  total_amount : Rat
  status : String
  shipping_address : Dict
  created_at : Nat
deriving DecidableEq, Repr

/-- The durable state: the four MongoDB collections, in natural order. -/
structure DB where
  users : List UserDoc
  products : List ProductDoc
  cart_items : List CartItemDoc
  orders : List OrderDoc
deriving DecidableEq, Repr

/-- An `HTTPException(status_code, detail)`. -/
structure HTTPError where
  status_code : Nat
  detail : String
deriving DecidableEq, Repr

/-! ## Store primitives -/

/-- Update the first element satisfying `p` by `f`; `none` when no element
matches (Mongo `update_one` with `matched_count = 0`). -/
def updateFirst (p : α → Bool) (f : α → α) : List α → Option (List α)
  | [] => none
  | x :: xs => if p x then some (f x :: xs) else (updateFirst p f xs).map (x :: ·)

/-- Mongo `update_one(filter, {$set})`: the updated collection together
with the `matched_count` (0 or 1). -/
def update_one (p : α → Bool) (f : α → α) (l : List α) : List α × Nat :=
  match updateFirst p f l with
  | some l' => (l', 1)
  | none => (l, 0)

/-- Mongo `delete_one(filter)`: the collection with the first match
removed, together with the `deleted_count` (0 or 1). -/
def delete_one (p : α → Bool) (l : List α) : List α × Nat :=
  match l.find? p with
  | some _ => (l.eraseP p, 1)
  | none => (l, 0)

/-! ## Structural lemmas about the store primitives -/

theorem updateFirst_eq_none {p : α → Bool} {f : α → α} :
    ∀ {l : List α}, updateFirst p f l = none ↔ l.find? p = none := by
  intro l
  induction l with
  | nil => simp [updateFirst]
  | cons x xs ih =>
    by_cases hx : p x <;> simp [updateFirst, List.find?_cons, hx, ih]

/-- When `find?` succeeds, the list splits as `l₁ ++ e :: l₂` with no match
in `l₁`; `updateFirst` rewrites exactly `e` and `eraseP` removes it. -/
theorem find?_decomp {p : α → Bool} {l : List α} {e : α}
    (h : l.find? p = some e) :
    p e = true ∧ ∃ l₁ l₂, l = l₁ ++ e :: l₂ ∧ (∀ x ∈ l₁, p x = false) ∧
      (∀ f : α → α, updateFirst p f l = some (l₁ ++ f e :: l₂)) ∧
      l.eraseP p = l₁ ++ l₂ := by
  induction l with
  | nil => simp [List.find?] at h
  | cons x xs ih =>
    by_cases hx : p x
    · rw [List.find?_cons_of_pos _ hx] at h
      cases h
      refine ⟨hx, [], xs, rfl, by simp, ?_, ?_⟩
      · intro f; simp [updateFirst, hx]
      · simp [List.eraseP_cons, hx]
    · rw [List.find?_cons_of_neg _ hx] at h
      obtain ⟨hpe, l₁, l₂, rfl, hl₁, hupd, hdel⟩ := ih h
      refine ⟨hpe, x :: l₁, l₂, rfl, ?_, ?_, ?_⟩
      · intro y hy
        rcases List.mem_cons.mp hy with rfl | hy
        · exact Bool.eq_false_iff.mpr hx
        · exact hl₁ y hy
      · intro f; simp [updateFirst, hx, hupd f]
      · simp [List.eraseP_cons, hx, hdel]

theorem find?_append_of_none {p : α → Bool} {l₁ l₂ : List α}
    (h : l₁.find? p = none) : (l₁ ++ l₂).find? p = l₂.find? p := by
  induction l₁ with
  | nil => simp
  | cons x xs ih =>
    rw [List.cons_append, List.find?_cons] at *
    rcases hx : p x with _ | _
    · simp only [hx] at h ⊢
      exact ih h
    · simp [hx] at h

theorem length_filterMap_eq_countP (f : α → Option β) (l : List α) :
    (l.filterMap f).length = l.countP (fun x => (f x).isSome) := by
  induction l with
  | nil => rfl
  | cons x xs ih =>
    rw [List.filterMap_cons, List.countP_cons]
    cases hfx : f x <;> simp [hfx, ih]

/-! ## Mongo `$regex` with `$options: "i"` (PCRE subset) -/

/-- A compiled regex token: a literal character or the `.` metacharacter. -/
inductive RTok where
  | lit (c : Char)
  | any
deriving DecidableEq, Repr

/-- Compile a pattern string: `.` becomes the any-character token, every
other character a literal.  (Faithful to PCRE only on patterns whose
characters are all non-metacharacters or `.` — the theorems below only
ever apply it to such patterns.) -/
def compilePattern (s : String) : List RTok :=
  s.data.map (fun c => if c = '.' then RTok.any else RTok.lit c)

/-- Case-insensitive single-token match; `.` does not match a newline. -/
def tokMatch : RTok → Char → Bool
  | RTok.lit c, d => c.toLower == d.toLower
  | RTok.any, d => d != '\n'

/-- Match the whole token list against a prefix of the text. -/
def matchTokens : List RTok → List Char → Bool
  | [], _ => true
  | _ :: _, [] => false
  | t :: ts, c :: cs => tokMatch t c && matchTokens ts cs

/-- Unanchored regex search: the tokens match starting at some position. -/
def regexFind (pat : List RTok) : List Char → Bool
  | [] => matchTokens pat []
  | c :: cs => matchTokens pat (c :: cs) || regexFind pat cs

/-- Mongo `{"$regex": pattern, "$options": "i"}` on a string field. -/
def mongoRegexMatch (pattern text : String) : Bool :=
  regexFind (compilePattern pattern) text.data

/-- PCRE metacharacters: a pattern free of them denotes its own literal text. -/
def isRegexMeta (c : Char) : Bool :=
  c = '.' || c = '^' || c = '$' || c = '*' || c = '+' || c = '?' ||
  c = '(' || c = ')' || c = '[' || c = ']' || c = '\x7b' || c = '\x7d' ||
  c = '|' || c = '\\'

/-- `containsSeq n h`: `n` occurs in `h` as a contiguous sublist. -/
def containsSeq [BEq α] : List α → List α → Bool
  | needle, [] => needle.isEmpty
  | needle, c :: t => needle.isPrefixOf (c :: t) || containsSeq needle t

/-- Spec-side predicate: `needle` occurs in `hay` case-insensitively as a
literal substring. -/
def containsCI (needle hay : String) : Bool :=
  containsSeq (needle.data.map Char.toLower) (hay.data.map Char.toLower)

/-- Python truthiness of an `Optional[str]` query parameter: `None` and
the empty string are falsy. -/
def truthy : Option String → Bool
  | none => false
  | some s => !(s == "")

/-! ## Route handlers -/

/-- `GET /api/products?category=&search=` (`get_products`): builds a Mongo
query — exact `category` match if `category` is truthy, `$or` of two
case-insensitive `$regex` clauses on `name`/`description` if `search` is
truthy — and fetches up to 1000 matches. -/
def get_products (db : DB) (category search : Option String) : List ProductDoc :=
  let catOK : ProductDoc → Bool :=
    if truthy category then (fun p => p.category == category.getD "") else (fun _ => true)
  let searchOK : ProductDoc → Bool :=
    if truthy search then
      (fun p => mongoRegexMatch (search.getD "") p.name ||
                mongoRegexMatch (search.getD "") p.description)
    else (fun _ => true)
  (db.products.filter (fun p => catOK p && searchOK p)).take 1000

/-- `GET /api/products/{product_id}` (`get_product`). -/
def get_product (db : DB) (product_id : String) : Except HTTPError ProductDoc :=
  match db.products.find? (fun p => p.id == product_id) with
  | none => .error ⟨404, "Product not found"⟩
  | some p => .ok p

/-- `POST /api/products` (`create_product`): builds a `Product` from the
request body with a fresh id and the current time, inserts it
unconditionally (no validation beyond the field types), and returns it. -/
def create_product (db : DB) (name description : String) (price : Rat)
    (image_url category : String) (stock : Int) (fresh : String) (now : Nat) :
    DB × ProductDoc :=
  let p : ProductDoc :=
    ⟨fresh, name, description, price, image_url, category, stock, now⟩
  ({ db with products := db.products ++ [p] }, p)

/-- `PUT /api/products/{product_id}` request body (`ProductUpdate`):
every field optional; `none` models a field absent from the request
(pydantic `exclude_unset`). -/
structure ProductUpdate where
  name : Option String := none
  description : Option String := none
  price : Option Rat := none
  image_url : Option String := none
  category : Option String := none
  stock : Option Int := none
deriving DecidableEq, Repr

/-- `update_data = product_update.dict(exclude_unset=True)` is non-empty. -/
def hasFields (u : ProductUpdate) : Bool :=
  u.name.isSome || u.description.isSome || u.price.isSome ||
  u.image_url.isSome || u.category.isSome || u.stock.isSome

/-- Mongo `$set` of the present fields onto a stored product. -/
def applyUpdate (u : ProductUpdate) (p : ProductDoc) : ProductDoc :=
  { p with
    name := u.name.getD p.name
    description := u.description.getD p.description
    price := u.price.getD p.price
    image_url := u.image_url.getD p.image_url
    category := u.category.getD p.category
    stock := u.stock.getD p.stock }

/-- `PUT /api/products/{product_id}` (`update_product`): 404 if the id is
absent; `$set`s only the present fields (skipping the write entirely when
the request sets none), re-reads and returns the stored record.  The final
branch where the re-read fails cannot occur (the handler would crash
constructing `Product(**None)`, surfaced as a 500). -/
def update_product (db : DB) (product_id : String) (u : ProductUpdate) :
    Except HTTPError (DB × ProductDoc) :=
  match db.products.find? (fun p => p.id == product_id) with
  | none => .error ⟨404, "Product not found"⟩
  | some _ =>
    let products' :=
      if hasFields u then
        (update_one (fun p => p.id == product_id) (applyUpdate u) db.products).1
      else db.products
    match products'.find? (fun p => p.id == product_id) with
    | some updated => .ok ({ db with products := products' }, updated)
    | none => .error ⟨500, "Internal Server Error"⟩

/-- `DELETE /api/products/{product_id}` (`delete_product`). -/
def delete_product (db : DB) (product_id : String) : Except HTTPError (DB × String) :=
  let (products', deleted_count) := delete_one (fun p => p.id == product_id) db.products
  if deleted_count == 0 then .error ⟨404, "Product not found"⟩
  else .ok ({ db with products := products' }, "Product deleted successfully")

/-- `GET /api/cart` (`get_cart`): fetches up to 1000 of the caller's cart
items, then for each looks up its product, silently skipping items whose
product no longer exists; each kept entry is `(id, quantity, product)`. -/
def get_cart (db : DB) (user_id : String) : List (String × Int × ProductDoc) :=
  ((db.cart_items.filter (fun c => c.user_id == user_id)).take 1000).filterMap
    (fun item => (db.products.find? (fun p => p.id == item.product_id)).map
      (fun product => (item.id, item.quantity, product)))

/-- `POST /api/cart` (`add_to_cart`): 404 if the product id resolves to no
product; otherwise merge-by-(user, product): increment the existing cart
item's quantity, or insert a fresh item with the requested quantity. -/
def add_to_cart (db : DB) (user_id product_id : String) (quantity : Int)
    (fresh : String) (now : Nat) : Except HTTPError (DB × String) :=
  match db.products.find? (fun p => p.id == product_id) with
  | none => .error ⟨404, "Product not found"⟩
  | some _ =>
    match db.cart_items.find?
        (fun c => c.user_id == user_id && c.product_id == product_id) with
    | some existing =>
      let new_quantity := existing.quantity + quantity
      let (items', _) := update_one (fun c => c.id == existing.id)
        (fun c => { c with quantity := new_quantity }) db.cart_items
      .ok ({ db with cart_items := items' }, "Cart item updated")
    | none =>
      let item : CartItemDoc := ⟨fresh, user_id, product_id, quantity, now⟩
      .ok ({ db with cart_items := db.cart_items ++ [item] }, "Item added to cart")

/-- `PUT /api/cart/{item_id}?quantity=` (`update_cart_item`): `$set`s the
quantity on the first cart item matching the compound filter
`{id, user_id}`; 404 when `matched_count = 0`. -/
def update_cart_item (db : DB) (user_id item_id : String) (quantity : Int) :
    Except HTTPError (DB × String) :=
  let (items', matched_count) := update_one
    (fun c => c.id == item_id && c.user_id == user_id)
    (fun c => { c with quantity := quantity }) db.cart_items
  if matched_count == 0 then .error ⟨404, "Cart item not found"⟩
  else .ok ({ db with cart_items := items' }, "Cart item updated")

/-- `DELETE /api/cart/{item_id}` (`remove_from_cart`): deletes the first
cart item matching `{id, user_id}`; 404 when `deleted_count = 0`. -/
def remove_from_cart (db : DB) (user_id item_id : String) :
    Except HTTPError (DB × String) :=
  let (items', deleted_count) := delete_one
    (fun c => c.id == item_id && c.user_id == user_id) db.cart_items
  if deleted_count == 0 then .error ⟨404, "Cart item not found"⟩
  else .ok ({ db with cart_items := items' }, "Item removed from cart")

/-- `POST /api/orders` (`create_order`): builds an `Order` from the
client-submitted body verbatim (status `"pending"`, fresh id, current
time), inserts it, then `delete_many`s every cart item of the caller. -/
def create_order (db : DB) (user_id : String) (items : List Dict)
    (total_amount : Rat) (shipping_address : Dict) (fresh : String) (now : Nat) :
    DB × OrderDoc :=
  let o : OrderDoc := ⟨fresh, user_id, items, total_amount, "pending",
    shipping_address, now⟩
  ({ db with
      orders := db.orders ++ [o]
      cart_items := db.cart_items.filter (fun c => !(c.user_id == user_id)) }, o)

/-- `GET /api/orders` (`get_user_orders`). -/
def get_user_orders (db : DB) (user_id : String) : List OrderDoc :=
  (db.orders.filter (fun o => o.user_id == user_id)).take 1000

/-- `POST /api/auth/register` (`register`): 400 if a user with the email
already exists (Mongo exact string match); otherwise stores a new user
with the bcrypt hash of the password (`hash` is the external hasher) and
returns a token bound to the fresh user id, with token type `"bearer"`. -/
def register (hash : String → String) (db : DB)
    (email full_name password : String) (fresh : String) (now : Nat) :
    Except HTTPError (DB × String × String) :=
  match db.users.find? (fun x => x.email == email) with
  | some _ => .error ⟨400, "Email already registered"⟩
  | none =>
    let user_obj : UserDoc := ⟨fresh, email, full_name, hash password, true, now⟩
    .ok ({ db with users := db.users ++ [user_obj] }, fresh, "bearer")

/-- `POST /api/auth/login` (`login`): one shared 401 when the email
matches no user or the password fails bcrypt verification (`verify` is the
external verifier); otherwise a token bound to the stored user's id. -/
def login (verify : String → String → Bool) (db : DB)
    (email password : String) : Except HTTPError (String × String) :=
  match db.users.find? (fun x => x.email == email) with
  | none =>
    .error ⟨401, "Incorrect email or password"⟩
  | some user =>
    if !(verify password user.hashed_password) then
      .error ⟨401, "Incorrect email or password"⟩
    else
      .ok (user.id, "bearer")

/-- The eight sample products inserted at first boot (`create_sample_data`);
`uuid k` stands for the `str(uuid.uuid4())` drawn for the `k`-th product. -/
def sampleProducts (uuid : Nat → String) (now : Nat) : List ProductDoc :=
  [ ⟨uuid 0, "Premium Wireless Headphones",
      "High-quality wireless headphones with noise cancellation and premium sound quality.",
      (199.99 : Rat), "https://images.unsplash.com/photo-1498049794561-7780e7231661",
      "Electronics", 50, now⟩,
    ⟨uuid 1, "MacBook Pro 13-inch",
      "Apple MacBook Pro with M2 chip, perfect for professionals and creatives.",
      (1299.99 : Rat), "https://images.unsplash.com/photo-1611186871348-b1ce696e52c9",
      "Electronics", 25, now⟩,
    ⟨uuid 2, "Modern Tech Workspace Setup",
      "Complete workspace setup with monitor, keyboard, and accessories.",
      (899.99 : Rat), "https://images.unsplash.com/photo-1588508065123-287b28e013da",
      "Electronics", 15, now⟩,
    ⟨uuid 3, "Designer Shopping Collection",
      "Curated fashion collection with premium shopping bags and accessories.",
      (149.99 : Rat), "https://images.unsplash.com/photo-1483985988355-763728e1935b",
      "Fashion", 30, now⟩,
    ⟨uuid 4, "Stylish Sunglasses",
      "Premium designer sunglasses with UV protection and modern styling.",
      (89.99 : Rat), "https://images.unsplash.com/photo-1529139574466-a303027c1d8b",
      "Fashion", 100, now⟩,
    ⟨uuid 5, "Premium Beauty Set",
      "Luxury beauty and cosmetic products for your skincare routine.",
      (79.99 : Rat), "https://images.unsplash.com/photo-1629198688000-71f23e745b6e",
      "Beauty", 60, now⟩,
    ⟨uuid 6, "Nike Air Max Sneakers",
      "Classic Nike Air Max sneakers with comfortable fit and iconic design.",
      (129.99 : Rat), "https://images.unsplash.com/photo-1542291026-7eec264c27ff",
      "Fashion", 75, now⟩,
    ⟨uuid 7, "Wireless Bluetooth Headphones",
      "Compact wireless headphones with excellent sound quality and long battery life.",
      (79.99 : Rat), "https://images.unsplash.com/photo-1505740420928-5e560c06d30e",
      "Electronics", 80, now⟩ ]

/-- Startup hook (`create_sample_data`): inserts the sample products iff
the `products` collection is empty at that instant. -/
def create_sample_data (uuid : Nat → String) (now : Nat) (db : DB) : DB :=
  if db.products.length == 0 then
    { db with products := db.products ++ sampleProducts uuid now }
  else db

/-! ## Further structural lemmas -/

theorem updateFirst_append_of_none {p : α → Bool} {f : α → α} {l₁ l₂ : List α}
    (h : l₁.find? p = none) :
    updateFirst p f (l₁ ++ l₂) = (updateFirst p f l₂).map (l₁ ++ ·) := by
  induction l₁ with
  | nil => simp
  | cons x xs ih =>
    rw [List.find?_cons] at h
    rcases hx : p x with _ | _
    · simp only [hx] at h
      simp [updateFirst, hx, ih h, Option.map_map]
      rfl
    · simp [hx] at h

/-- In a list whose keys are pairwise distinct, searching for a member's
key finds exactly that member. -/
theorem find?_key_unique [BEq β] [LawfulBEq β] {f : α → β} {l : List α} {e : α}
    (hp : l.Pairwise (fun a b => f a ≠ f b)) (he : e ∈ l) :
    l.find? (fun x => f x == f e) = some e := by
  induction l with
  | nil => simp at he
  | cons x xs ih =>
    rcases List.pairwise_cons.mp hp with ⟨hx, hxs⟩
    rcases List.mem_cons.mp he with rfl | he'
    · simp
    · have hne : (f x == f e) = false := beq_eq_false_iff_ne.mpr (hx e he')
      simp [List.find?_cons, hne, ih hxs he']

/-! ## Claims -/

/-- C1: For an authenticated user and a product id resolving to an existing
product, `add_to_cart` merges by (user, product): an existing cart item
for the pair has its quantity incremented by the requested amount and the
call reports "Cart item updated"; with no such item a new cart item with
the requested quantity is inserted and the call reports "Item added to
cart"; adding quantities 2 then 3 leaves exactly one cart item for the
pair, with quantity 5.  If the product id resolves to no product the call
fails with 404 and (the handler having performed no write) the store is
unchanged. -/
theorem C1_add_to_cart_merge (db : DB) (u pid : String) (q : Int)
    (f1 f2 : String) (n1 n2 : Nat) :
    (db.products.find? (fun p => p.id == pid) = none →
      add_to_cart db u pid q f1 n1 = .error ⟨404, "Product not found"⟩) ∧
    (∀ prod e, db.products.find? (fun p => p.id == pid) = some prod →
      db.cart_items.find? (fun c => c.user_id == u && c.product_id == pid) = some e →
      db.cart_items.Pairwise (fun a b => a.id ≠ b.id) →
      ∃ db', add_to_cart db u pid q f1 n1 = .ok (db', "Cart item updated") ∧
        { e with quantity := e.quantity + q } ∈ db'.cart_items ∧
        db'.cart_items.length = db.cart_items.length ∧
        (∀ c ∈ db'.cart_items,
          c = { e with quantity := e.quantity + q } ∨ c ∈ db.cart_items) ∧
        db'.users = db.users ∧ db'.products = db.products ∧ db'.orders = db.orders) ∧
    (∀ prod, db.products.find? (fun p => p.id == pid) = some prod →
      db.cart_items.find? (fun c => c.user_id == u && c.product_id == pid) = none →
      add_to_cart db u pid q f1 n1 =
        .ok ({ db with cart_items := db.cart_items ++ [⟨f1, u, pid, q, n1⟩] },
          "Item added to cart")) ∧
    (∀ prod, db.products.find? (fun p => p.id == pid) = some prod →
      db.cart_items.find? (fun c => c.user_id == u && c.product_id == pid) = none →
      (∀ c ∈ db.cart_items, c.id ≠ f1) →
      ∃ db₁ db₂,
        add_to_cart db u pid 2 f1 n1 = .ok (db₁, "Item added to cart") ∧
        add_to_cart db₁ u pid 3 f2 n2 = .ok (db₂, "Cart item updated") ∧
        db₂.cart_items.countP (fun c => c.user_id == u && c.product_id == pid) = 1 ∧
        (⟨f1, u, pid, 5, n1⟩ : CartItemDoc) ∈ db₂.cart_items ∧
        (∀ c ∈ db₂.cart_items, c.user_id = u → c.product_id = pid →
          c = ⟨f1, u, pid, 5, n1⟩)) := by
  refine ⟨?_, ?_, ?_, ?_⟩
  · intro h
    simp [add_to_cart, h]
  · intro prod e hp he hids
    have hmem := List.mem_of_find?_eq_some he
    have hfind : db.cart_items.find? (fun c => c.id == e.id) = some e :=
      find?_key_unique (f := CartItemDoc.id) hids hmem
    obtain ⟨-, l₁, l₂, hsplit, hl₁, hupd, -⟩ := find?_decomp hfind
    refine ⟨{ db with cart_items :=
        l₁ ++ { e with quantity := e.quantity + q } :: l₂ }, ?_, ?_, ?_, ?_, rfl, rfl, rfl⟩
    · simp only [add_to_cart, hp, he, update_one,
        hupd (fun c => { c with quantity := e.quantity + q })]
    · simp
    · rw [hsplit]; simp
    · intro c hc
      rw [hsplit]
      simp only [List.mem_append, List.mem_cons] at hc ⊢
      tauto
  · intro prod hp he
    simp [add_to_cart, hp, he]
  · intro prod hp hnone hfresh
    have hitem2 : (fun c : CartItemDoc => c.user_id == u && c.product_id == pid)
        (⟨f1, u, pid, 2, n1⟩ : CartItemDoc) = true := by simp
    have hfind2 : (db.cart_items ++ [(⟨f1, u, pid, 2, n1⟩ : CartItemDoc)]).find?
        (fun c => c.user_id == u && c.product_id == pid) =
        some ⟨f1, u, pid, 2, n1⟩ := by
      rw [find?_append_of_none hnone]
      simp
    have hnoid : db.cart_items.find? (fun c => c.id == f1) = none :=
      List.find?_eq_none.mpr (fun c hc => by
        simp only [beq_iff_eq]
        exact hfresh c hc)
    have hupd2 : updateFirst (fun c : CartItemDoc => c.id == f1)
        (fun c => { c with quantity := (2 : Int) + 3 })
        (db.cart_items ++ [(⟨f1, u, pid, 2, n1⟩ : CartItemDoc)]) =
        some (db.cart_items ++ [(⟨f1, u, pid, 5, n1⟩ : CartItemDoc)]) := by
      rw [updateFirst_append_of_none hnoid]
      norm_num [updateFirst]
    have hzero : db.cart_items.countP
        (fun c => c.user_id == u && c.product_id == pid) = 0 :=
      List.countP_eq_zero.mpr (List.find?_eq_none.mp hnone)
    refine ⟨{ db with cart_items := db.cart_items ++ [⟨f1, u, pid, 2, n1⟩] },
      { db with cart_items := db.cart_items ++ [⟨f1, u, pid, 5, n1⟩] },
      ?_, ?_, ?_, ?_, ?_⟩
    · simp [add_to_cart, hp, hnone]
    · simp only [add_to_cart, hp, hfind2, update_one, hupd2]
    · simp [hzero]
    · simp
    · intro c hc hcu hcp
      rcases List.mem_append.mp hc with hc' | hc'
      · exact absurd (by simp [hcu, hcp]) (List.find?_eq_none.mp hnone c hc')
      · simpa using hc'

theorem C1_add_to_cart_merge_witness :
    add_to_cart ⟨[], [⟨"p1", "n", "d", 10, "u", "c", 5, 0⟩], [], []⟩
        "u1" "p1" 2 "c1" 0 =
      .ok (⟨[], [⟨"p1", "n", "d", 10, "u", "c", 5, 0⟩],
          [⟨"c1", "u1", "p1", 2, 0⟩], []⟩, "Item added to cart") :=
  (C1_add_to_cart_merge ⟨[], [⟨"p1", "n", "d", 10, "u", "c", 5, 0⟩], [], []⟩
      "u1" "p1" 2 "c1" "c2" 0 0).2.2.1
    ⟨"p1", "n", "d", 10, "u", "c", 5, 0⟩ (by decide) (by decide)

/-- C2: `create_order` always succeeds; afterwards no cart item of the
caller remains (the cart is emptied unconditionally, independent of the
submitted items), other users' cart items are untouched, and the persisted
order snapshots the client-submitted items, total and shipping address
verbatim with status "pending". -/
theorem C2_create_order_clears_cart (db : DB) (u : String) (items : List Dict)
    (total : Rat) (addr : Dict) (fresh : String) (now : Nat) :
    (∀ c ∈ (create_order db u items total addr fresh now).1.cart_items,
      c.user_id ≠ u) ∧
    (∀ c ∈ db.cart_items, c.user_id ≠ u →
      c ∈ (create_order db u items total addr fresh now).1.cart_items) ∧
    (∀ c ∈ (create_order db u items total addr fresh now).1.cart_items,
      c ∈ db.cart_items) ∧
    (create_order db u items total addr fresh now).2.items = items ∧
    (create_order db u items total addr fresh now).2.total_amount = total ∧
    (create_order db u items total addr fresh now).2.shipping_address = addr ∧
    (create_order db u items total addr fresh now).2.user_id = u ∧
    (create_order db u items total addr fresh now).2.status = "pending" ∧
    (create_order db u items total addr fresh now).1.orders =
      db.orders ++ [(create_order db u items total addr fresh now).2] ∧
    (create_order db u items total addr fresh now).1.users = db.users ∧
    (create_order db u items total addr fresh now).1.products = db.products := by
  refine ⟨?_, ?_, ?_, rfl, rfl, rfl, rfl, rfl, rfl, rfl, rfl⟩
  · intro c hc
    simp only [create_order, List.mem_filter, Bool.not_eq_eq_eq_not, Bool.not_true,
      beq_eq_false_iff_ne] at hc
    exact hc.2
  · intro c hc hne
    simp only [create_order, List.mem_filter]
    exact ⟨hc, by simpa using hne⟩
  · intro c hc
    simp only [create_order, List.mem_filter] at hc
    exact hc.1

theorem C2_create_order_clears_cart_witness :
    ¬ (⟨"c9", "u2", "p1", 1, 0⟩ : CartItemDoc).user_id = "u1" :=
  (C2_create_order_clears_cart
      ⟨[], [], [⟨"c1", "u1", "p1", 2, 0⟩, ⟨"c9", "u2", "p1", 1, 0⟩], []⟩
      "u1" [[("product_id", "p1")]] 59.97 [("city", "X")] "o1" 5).1
    ⟨"c9", "u2", "p1", 1, 0⟩ (by decide)

/-- C3: `update_cart_item` and `remove_from_cart` fail with 404 whenever no
cart item with the given id is owned by the caller — in particular when an
item with that id exists but belongs to a different user; on the caller's
own item, `update_cart_item` sets the quantity to the given value exactly
and `remove_from_cart` deletes the item. -/
theorem C3_cart_ownership (db : DB) (u iid : String) (q : Int) :
    (db.cart_items.find? (fun c => c.id == iid && c.user_id == u) = none →
      update_cart_item db u iid q = .error ⟨404, "Cart item not found"⟩ ∧
      remove_from_cart db u iid = .error ⟨404, "Cart item not found"⟩) ∧
    ((∀ c ∈ db.cart_items, c.id = iid → c.user_id ≠ u) →
      update_cart_item db u iid q = .error ⟨404, "Cart item not found"⟩ ∧
      remove_from_cart db u iid = .error ⟨404, "Cart item not found"⟩) ∧
    (∀ e, db.cart_items.find? (fun c => c.id == iid && c.user_id == u) = some e →
      (∃ db', update_cart_item db u iid q = .ok (db', "Cart item updated") ∧
        { e with quantity := q } ∈ db'.cart_items ∧
        db'.cart_items.length = db.cart_items.length ∧
        (∀ c ∈ db'.cart_items, c = { e with quantity := q } ∨ c ∈ db.cart_items) ∧
        db'.users = db.users ∧ db'.products = db.products ∧
        db'.orders = db.orders) ∧
      (∃ db'', remove_from_cart db u iid = .ok (db'', "Item removed from cart") ∧
        db''.cart_items.length + 1 = db.cart_items.length ∧
        (∀ c ∈ db''.cart_items, c ∈ db.cart_items) ∧
        db''.cart_items.countP (fun c => c.id == iid && c.user_id == u) + 1 =
          db.cart_items.countP (fun c => c.id == iid && c.user_id == u) ∧
        db''.users = db.users ∧ db''.products = db.products ∧
        db''.orders = db.orders)) := by
  refine ⟨?_, ?_, ?_⟩
  · intro h
    constructor
    · simp [update_cart_item, update_one, updateFirst_eq_none.mpr h]
    · simp [remove_from_cart, delete_one, h]
  · intro h
    have hnone : db.cart_items.find? (fun c => c.id == iid && c.user_id == u) = none := by
      refine List.find?_eq_none.mpr (fun c hc => ?_)
      simp only [Bool.and_eq_true, beq_iff_eq, not_and]
      exact fun hcid => by simpa using h c hc hcid
    constructor
    · simp [update_cart_item, update_one, updateFirst_eq_none.mpr hnone]
    · simp [remove_from_cart, delete_one, hnone]
  · intro e he
    obtain ⟨hpe, l₁, l₂, hsplit, hl₁, hupd, hdel⟩ := find?_decomp he
    constructor
    · refine ⟨{ db with cart_items := l₁ ++ { e with quantity := q } :: l₂ },
        ?_, ?_, ?_, ?_, rfl, rfl, rfl⟩
      · simp only [update_cart_item, update_one,
          hupd (fun c => { c with quantity := q })]
        rfl
      · simp
      · rw [hsplit]; simp
      · intro c hc
        rw [hsplit]
        simp only [List.mem_append, List.mem_cons] at hc ⊢
        tauto
    · refine ⟨{ db with cart_items := l₁ ++ l₂ }, ?_, ?_, ?_, ?_, rfl, rfl, rfl⟩
      · simp [remove_from_cart, delete_one, he, hdel]
      · rw [hsplit]; simp; omega
      · intro c hc
        rw [hsplit]
        simp only [List.mem_append, List.mem_cons] at hc ⊢
        tauto
      · rw [hsplit]
        have hz : l₁.countP (fun c => c.id == iid && c.user_id == u) = 0 :=
          List.countP_eq_zero.mpr (fun c hc => by simp [hl₁ c hc])
        simp [List.countP_append, List.countP_cons, hpe, hz]

theorem C3_cart_ownership_witness :
    update_cart_item ⟨[], [], [⟨"c1", "u1", "p1", 2, 0⟩], []⟩ "u2" "c1" 7 =
        .error ⟨404, "Cart item not found"⟩ ∧
    remove_from_cart ⟨[], [], [⟨"c1", "u1", "p1", 2, 0⟩], []⟩ "u2" "c1" =
        .error ⟨404, "Cart item not found"⟩ :=
  (C3_cart_ownership ⟨[], [], [⟨"c1", "u1", "p1", 2, 0⟩], []⟩ "u2" "c1" 7).2.1
    (by decide)

/-- C5: the two login failure causes — no user with the email, and a stored
user whose password hash does not verify — produce the identical error
(same status code 401 and same detail string), so they are
indistinguishable to the caller. -/
theorem C5_login_uniform_error (verify : String → String → Bool) (db : DB)
    (e1 p1 e2 p2 : String) (u : UserDoc)
    (h1 : db.users.find? (fun x => x.email == e1) = none)
    (h2 : db.users.find? (fun x => x.email == e2) = some u)
    (hv : verify p2 u.hashed_password = false) :
    login verify db e1 p1 = .error ⟨401, "Incorrect email or password"⟩ ∧
    login verify db e2 p2 = .error ⟨401, "Incorrect email or password"⟩ ∧
    login verify db e1 p1 = login verify db e2 p2 := by
  have hl1 : login verify db e1 p1 = .error ⟨401, "Incorrect email or password"⟩ := by
    simp [login, h1]
  have hl2 : login verify db e2 p2 = .error ⟨401, "Incorrect email or password"⟩ := by
    simp [login, h2, hv]
  exact ⟨hl1, hl2, hl1.trans hl2.symm⟩

theorem C5_login_uniform_error_witness :
    login (fun _ _ => false) ⟨[⟨"u9", "a@b.c", "A", "h", true, 0⟩], [], [], []⟩
        "x@y.z" "pw" =
      .error ⟨401, "Incorrect email or password"⟩ ∧
    login (fun _ _ => false) ⟨[⟨"u9", "a@b.c", "A", "h", true, 0⟩], [], [], []⟩
        "a@b.c" "bad" =
      .error ⟨401, "Incorrect email or password"⟩ ∧
    login (fun _ _ => false) ⟨[⟨"u9", "a@b.c", "A", "h", true, 0⟩], [], [], []⟩
        "x@y.z" "pw" =
      login (fun _ _ => false) ⟨[⟨"u9", "a@b.c", "A", "h", true, 0⟩], [], [], []⟩
        "a@b.c" "bad" :=
  C5_login_uniform_error (fun _ _ => false)
    ⟨[⟨"u9", "a@b.c", "A", "h", true, 0⟩], [], [], []⟩
    "x@y.z" "pw" "a@b.c" "bad" ⟨"u9", "a@b.c", "A", "h", true, 0⟩
    (by decide) (by decide) rfl

/-- C6: `register` fails with 400 (Conflict) and inserts nothing when a
user with the email already exists, matched exactly as stored; otherwise
it appends exactly one user document carrying the hashed password and a
fresh id, returns a bearer token bound to that id, and a second
registration with the same email then fails with 400. -/
theorem C6_register_unique_email (hash : String → String) (db : DB)
    (e fn pw fresh : String) (now : Nat) (fn' pw' fresh' : String) (now' : Nat) :
    ((∃ x ∈ db.users, x.email = e) →
      register hash db e fn pw fresh now = .error ⟨400, "Email already registered"⟩) ∧
    (db.users.find? (fun x => x.email == e) = none →
      ∃ db', register hash db e fn pw fresh now = .ok (db', fresh, "bearer") ∧
        db'.users = db.users ++ [⟨fresh, e, fn, hash pw, true, now⟩] ∧
        db'.products = db.products ∧ db'.cart_items = db.cart_items ∧
        db'.orders = db.orders ∧
        register hash db' e fn' pw' fresh' now' =
          .error ⟨400, "Email already registered"⟩) := by
  constructor
  · intro ⟨x, hx, hxe⟩
    cases hfind : db.users.find? (fun y => y.email == e) with
    | none => exact absurd (by simp [hxe]) (List.find?_eq_none.mp hfind x hx)
    | some y => simp [register, hfind]
  · intro hnone
    refine ⟨{ db with users := db.users ++ [⟨fresh, e, fn, hash pw, true, now⟩] },
      ?_, rfl, rfl, rfl, rfl, ?_⟩
    · simp [register, hnone]
    · have hfind2 : (db.users ++ [(⟨fresh, e, fn, hash pw, true, now⟩ : UserDoc)]).find?
          (fun x => x.email == e) = some ⟨fresh, e, fn, hash pw, true, now⟩ := by
        rw [find?_append_of_none hnone]
        simp
      simp [register, hfind2]

theorem C6_register_unique_email_witness :
    register (fun s => String.append s "#") ⟨[], [], [], []⟩
        "a@b.c" "A" "pw" "u9" 0 =
      .ok (⟨[⟨"u9", "a@b.c", "A", "pw#", true, 0⟩], [], [], []⟩, "u9", "bearer") := by
  obtain ⟨db', heq, hu, hp, hc, ho, -⟩ :=
    (C6_register_unique_email (fun s => String.append s "#") ⟨[], [], [], []⟩
      "a@b.c" "A" "pw" "u9" 0 "B" "pw2" "u10" 1).2 rfl
  cases db'
  simp only at hu hp hc ho
  rw [heq, hu, hp, hc, ho]
  rfl

/-- C7: partial-update semantics of `update_product`: 404 when the product
id is absent; otherwise exactly the supplied fields are overwritten and
every field not supplied (`none`) keeps its stored value; a request
supplying no fields at all leaves the store untouched and returns the
current record. -/
theorem C7_update_product_sparse (db : DB) (pid : String) (u : ProductUpdate) :
    (db.products.find? (fun p => p.id == pid) = none →
      update_product db pid u = .error ⟨404, "Product not found"⟩) ∧
    (∀ p, db.products.find? (fun p => p.id == pid) = some p →
      ∃ db' r, update_product db pid u = .ok (db', r) ∧
        r.id = p.id ∧
        r.name = u.name.getD p.name ∧
        r.description = u.description.getD p.description ∧
        r.price = u.price.getD p.price ∧
        r.image_url = u.image_url.getD p.image_url ∧
        r.category = u.category.getD p.category ∧
        r.stock = u.stock.getD p.stock ∧
        r.created_at = p.created_at ∧
        db'.products.length = db.products.length ∧
        (∀ x ∈ db'.products, x = r ∨ x ∈ db.products) ∧
        db'.users = db.users ∧ db'.cart_items = db.cart_items ∧
        db'.orders = db.orders) ∧
    (u = ⟨none, none, none, none, none, none⟩ →
      ∀ p, db.products.find? (fun p => p.id == pid) = some p →
      update_product db pid u = .ok (db, p)) := by
  refine ⟨?_, ?_, ?_⟩
  · intro h
    simp [update_product, h]
  · intro p hp
    by_cases hf : hasFields u
    · obtain ⟨hpe, l₁, l₂, hsplit, hl₁, hupd, -⟩ := find?_decomp hp
      have hfind1 : l₁.find? (fun x => x.id == pid) = none :=
        List.find?_eq_none.mpr (fun x hx => by simp [hl₁ x hx])
      have hre : (l₁ ++ applyUpdate u p :: l₂).find? (fun x => x.id == pid) =
          some (applyUpdate u p) := by
        rw [find?_append_of_none hfind1]
        exact List.find?_cons_of_pos _ hpe
      refine ⟨{ db with products := l₁ ++ applyUpdate u p :: l₂ }, applyUpdate u p,
        ?_, rfl, rfl, rfl, rfl, rfl, rfl, rfl, rfl, ?_, ?_, rfl, rfl, rfl⟩
      · simp only [update_product, hp, hf, if_true, update_one,
          hupd (applyUpdate u), hre]
      · rw [hsplit]; simp
      · intro x hx
        rw [hsplit]
        simp only [List.mem_append, List.mem_cons] at hx ⊢
        tauto
    · have hn : u.name = none ∧ u.description = none ∧ u.price = none ∧
          u.image_url = none ∧ u.category = none ∧ u.stock = none := by
        simp only [hasFields, Bool.or_eq_true, Option.isSome_iff_ne_none, ne_eq,
          not_or, not_not] at hf
        tauto
      obtain ⟨h1, h2, h3, h4, h5, h6⟩ := hn
      refine ⟨db, p, ?_, rfl, by simp [h1], by simp [h2], by simp [h3],
        by simp [h4], by simp [h5], by simp [h6], rfl, rfl,
        fun x hx => Or.inr hx, rfl, rfl, rfl⟩
      have hffalse : hasFields u = false := Bool.eq_false_iff.mpr hf
      simp only [update_product, hp, hffalse, if_false, Bool.false_eq_true]
  · intro hu p hp
    subst hu
    have hffalse : hasFields ⟨none, none, none, none, none, none⟩ = false := rfl
    simp only [update_product, hp, hffalse, if_false, Bool.false_eq_true]

theorem C7_update_product_sparse_witness :
    update_product ⟨[], [⟨"p1", "n", "d", 10, "u", "c", 5, 0⟩], [], []⟩ "p1"
        ⟨none, none, none, none, none, none⟩ =
      .ok (⟨[], [⟨"p1", "n", "d", 10, "u", "c", 5, 0⟩], [], []⟩,
        ⟨"p1", "n", "d", 10, "u", "c", 5, 0⟩) :=
  (C7_update_product_sparse ⟨[], [⟨"p1", "n", "d", 10, "u", "c", 5, 0⟩], [], []⟩
      "p1" ⟨none, none, none, none, none, none⟩).2.2 rfl
    ⟨"p1", "n", "d", 10, "u", "c", 5, 0⟩ (by decide)

/-- C10: an empty string supplied for `category` or `search` is falsy in
the handler's `if category:` / `if search:` guards, so it adds no filter
clause: the call behaves exactly as if the parameter were absent, and with
both parameters empty the full unfiltered listing (up to 1000) is
returned. -/
theorem C10_empty_string_no_filter (db : DB) (c s : Option String) :
    get_products db (some "") s = get_products db none s ∧
    get_products db c (some "") = get_products db c none ∧
    get_products db (some "") (some "") = db.products.take 1000 := by
  refine ⟨rfl, rfl, ?_⟩
  simp [get_products, truthy]

/-! ## The regex/substring comparison for C4 -/

theorem matchTokens_lit (cs : List Char) :
    ∀ h : List Char, matchTokens (cs.map RTok.lit) h =
      (cs.map Char.toLower).isPrefixOf (h.map Char.toLower) := by
  induction cs with
  | nil => intro h; simp [matchTokens]
  | cons c cs ih =>
    intro h
    cases h with
    | nil => simp [matchTokens]
    | cons d ds =>
      simp only [List.map_cons, matchTokens, tokMatch, List.isPrefixOf, ih ds]

theorem regexFind_lit (cs : List Char) (h : List Char) :
    regexFind (cs.map RTok.lit) h =
      containsSeq (cs.map Char.toLower) (h.map Char.toLower) := by
  induction h with
  | nil => cases cs <;> simp [regexFind, matchTokens, containsSeq]
  | cons d ds ih =>
    simp only [regexFind, List.map_cons, containsSeq, ih, matchTokens_lit]

/-- On a pattern free of PCRE metacharacters, the Mongo case-insensitive
regex match coincides with literal case-insensitive substring
containment. -/
theorem mongoRegexMatch_literal {s : String}
    (hs : s.data.all (fun c => !isRegexMeta c) = true) (t : String) :
    mongoRegexMatch s t = containsCI s t := by
  have hc : compilePattern s = s.data.map RTok.lit := by
    unfold compilePattern
    apply List.map_congr_left
    intro c hcmem
    have hmeta : isRegexMeta c = false := by
      simpa using List.all_eq_true.mp hs c hcmem
    have hdot : ¬ c = '.' := by
      intro h
      rw [h] at hmeta
      simp [isRegexMeta] at hmeta
    simp [hdot]
  rw [mongoRegexMatch, hc, regexFind_lit]
  rfl

/-- C4 counterexample: the stored product is named "abc" (description
"x"); the search string "a.c" is not a case-insensitive literal substring
of either field, yet the listing returns the product, because the handler
passes the search string to Mongo `$regex` and `.` matches any
character. -/
theorem C4_search_counterexample :
    get_products ⟨[], [⟨"p1", "abc", "x", 10, "u", "c", 5, 0⟩], [], []⟩
        none (some "a.c") = [⟨"p1", "abc", "x", 10, "u", "c", 5, 0⟩] ∧
    containsCI "a.c" "abc" = false ∧
    containsCI "a.c" "x" = false := by
  refine ⟨by decide, by decide, by decide⟩

/-- C4 (amended): for a search string free of regex metacharacters, the
search filter returns exactly the stored products whose name or
description contains it case-insensitively as a literal substring (the
handler interprets the search string as a case-insensitive regular
expression, which coincides with substring match in that case); a
non-empty category filter is an exact equality match; both filters
combine as a conjunction; with no filters every product is returned, all
up to the 1000-document fetch limit. -/
theorem C4_product_filters (db : DB) (s c : String) (hs : s ≠ "")
    (hsl : s.data.all (fun ch => !isRegexMeta ch) = true) (hc : c ≠ "") :
    get_products db none (some s) =
      (db.products.filter (fun p =>
        containsCI s p.name || containsCI s p.description)).take 1000 ∧
    get_products db (some c) none =
      (db.products.filter (fun p => p.category == c)).take 1000 ∧
    get_products db (some c) (some s) =
      (db.products.filter (fun p => (p.category == c) &&
        (containsCI s p.name || containsCI s p.description))).take 1000 ∧
    get_products db none none = db.products.take 1000 := by
  have hms : ∀ t, mongoRegexMatch s t = containsCI s t := mongoRegexMatch_literal hsl
  have hts : truthy (some s) = true := by simp [truthy, hs]
  have htc : truthy (some c) = true := by simp [truthy, hc]
  refine ⟨?_, ?_, ?_, ?_⟩
  · simp only [get_products, truthy, hts, if_true, if_false]
    congr 1
    apply List.filter_congr
    intro p _
    simp [hms, hs]
  · simp only [get_products, truthy, htc, if_true, if_false]
    congr 1
    apply List.filter_congr
    intro p _
    simp [hc]
  · simp only [get_products, truthy, hts, htc, if_true]
    congr 1
    apply List.filter_congr
    intro p _
    simp [hms, hs, hc]
  · simp [get_products, truthy]

theorem C4_product_filters_witness :
    get_products ⟨[], [⟨"p1", "abc", "x", 10, "u", "c", 5, 0⟩], [], []⟩
        none (some "bc") =
      ((⟨[], [⟨"p1", "abc", "x", 10, "u", "c", 5, 0⟩], [], []⟩ : DB).products.filter
        (fun p => containsCI "bc" p.name || containsCI "bc" p.description)).take 1000 :=
  (C4_product_filters ⟨[], [⟨"p1", "abc", "x", 10, "u", "c", 5, 0⟩], [], []⟩
    "bc" "Electronics" (by decide) (by decide) (by decide)).1

/-! ## The product non-negativity invariant (C8) -/

/-- Every element of an `update_one` result is either an old element or
the image under the update of an old element. -/
theorem update_one_mem {p : α → Bool} {f : α → α} {l : List α} {x : α}
    (hx : x ∈ (update_one p f l).1) : x ∈ l ∨ ∃ y ∈ l, x = f y := by
  rw [update_one] at hx
  cases hfind : l.find? p with
  | none =>
    rw [updateFirst_eq_none.mpr hfind] at hx
    exact Or.inl hx
  | some e =>
    obtain ⟨-, l₁, l₂, hsplit, -, hupd, -⟩ := find?_decomp hfind
    rw [hupd f] at hx
    simp only at hx
    rw [hsplit]
    simp only [List.mem_append, List.mem_cons] at hx ⊢
    rcases hx with h | h | h
    · exact Or.inl (Or.inl h)
    · exact Or.inr ⟨e, Or.inr (Or.inl rfl), h⟩
    · exact Or.inl (Or.inr (Or.inr h))

/-- The invariant claimed by the spec's data model: every stored product
has non-negative price and non-negative stock. -/
def prodNonNeg (db : DB) : Bool :=
  db.products.all (fun p => decide (0 ≤ p.price) && decide (0 ≤ p.stock))

/-- C8 counterexample: `create_product` performs no validation, so from
the empty store (which trivially satisfies the invariant) one create call
carrying a negative price and negative stock yields a store violating it:
non-negativity is not preserved by every product-writing operation. -/
theorem C8_nonneg_counterexample :
    prodNonNeg ⟨[], [], [], []⟩ = true ∧
    prodNonNeg (create_product ⟨[], [], [], []⟩
      "x" "d" (-1) "u" "c" (-2) "f" 0).1 = false := by
  refine ⟨by decide, by decide⟩

/-- C8 (amended): the stores reachable through writes carrying only
non-negative price/stock values satisfy the invariant: starting from a
store of non-negative products, `create_product` with non-negative price
and stock, `update_product` whose set fields are non-negative, and the
startup seeding all preserve it (the handlers themselves enforce
nothing). -/
theorem C8_nonneg_preserved (db : DB) (hdb : prodNonNeg db = true) :
    (∀ name description price image_url category stock fresh now,
      0 ≤ price → 0 ≤ stock →
      prodNonNeg (create_product db name description price
        image_url category stock fresh now).1 = true) ∧
    (∀ pid u db' r,
      (∀ x, u.price = some x → (0 : Rat) ≤ x) →
      (∀ x, u.stock = some x → (0 : Int) ≤ x) →
      update_product db pid u = .ok (db', r) →
      prodNonNeg db' = true) ∧
    (∀ uuid now, prodNonNeg (create_sample_data uuid now db) = true) := by
  rw [prodNonNeg, List.all_eq_true] at hdb
  refine ⟨?_, ?_, ?_⟩
  · intro name description price image_url category stock fresh now hp hs
    rw [prodNonNeg, List.all_eq_true]
    intro p hp'
    simp only [create_product, List.mem_append, List.mem_singleton] at hp'
    rcases hp' with h | rfl
    · exact hdb p h
    · simp [hp, hs]
  · intro pid u db' r hup hus hok
    rw [update_product] at hok
    cases hfind : db.products.find? (fun p => p.id == pid) with
    | none => rw [hfind] at hok; cases hok
    | some p0 =>
      rw [hfind] at hok
      simp only at hok
      have hmem : ∀ x ∈ (if hasFields u then
          (update_one (fun p => p.id == pid) (applyUpdate u) db.products).1
          else db.products), (decide (0 ≤ x.price) && decide (0 ≤ x.stock)) = true := by
        intro x hx
        by_cases hf : hasFields u
        · rw [if_pos hf] at hx
          rcases update_one_mem hx with h | ⟨y, hy, rfl⟩
          · exact hdb x h
          · have hy' := hdb y hy
            simp only [Bool.and_eq_true, decide_eq_true_eq] at hy' ⊢
            constructor
            · cases hup' : u.price with
              | none => simpa [applyUpdate, hup'] using hy'.1
              | some v => simpa [applyUpdate, hup'] using hup v hup'
            · cases hus' : u.stock with
              | none => simpa [applyUpdate, hus'] using hy'.2
              | some v => simpa [applyUpdate, hus'] using hus v hus'
        · rw [if_neg hf] at hx
          exact hdb x hx
      cases hre : (if hasFields u then
          (update_one (fun p => p.id == pid) (applyUpdate u) db.products).1
          else db.products).find? (fun p => p.id == pid) with
      | none => rw [hre] at hok; cases hok
      | some upd =>
        rw [hre] at hok
        simp only [Except.ok.injEq, Prod.mk.injEq] at hok
        obtain ⟨h1, -⟩ := hok
        subst h1
        rw [prodNonNeg, List.all_eq_true]
        exact hmem
  · intro uuid now
    rw [create_sample_data]
    by_cases hz : db.products.length == 0
    · rw [if_pos hz]
      rw [prodNonNeg, List.all_eq_true]
      intro p hp
      simp only [List.mem_append] at hp
      rcases hp with h | h
      · exact hdb p h
      · simp only [sampleProducts, List.mem_cons, List.not_mem_nil, or_false] at h
        rcases h with rfl | rfl | rfl | rfl | rfl | rfl | rfl | rfl <;> norm_num
    · rw [if_neg hz]
      rw [prodNonNeg, List.all_eq_true]
      exact hdb

theorem C8_nonneg_preserved_witness :
    prodNonNeg (create_product ⟨[], [], [], []⟩
      "x" "d" 3 "u" "c" 2 "f" 0).1 = true :=
  (C8_nonneg_preserved ⟨[], [], [], []⟩ (by decide)).1
    "x" "d" 3 "u" "c" 2 "f" 0 (by norm_num) (by norm_num)

/-! ## The cart listing join (C9) -/

/-- C9 counterexample store: one product and 1001 cart items of the same
user, each referencing that product. -/
def bigCart : List CartItemDoc :=
  (List.range 1001).map (fun k => ⟨toString k, "u", "p", 1, 0⟩)

def bigDB : DB := ⟨[], [⟨"p", "n", "d", 1, "i", "c", 1, 0⟩], bigCart, []⟩

set_option maxRecDepth 40000 in
/-- C9 counterexample: with 1001 cart items owned by the user, all of
whose products exist, the listing returns only 1000 entries — the
`to_list(1000)` fetch bound silently truncates the cart, so there is not
one entry for each owned cart item with an existing product. -/
theorem C9_get_cart_counterexample :
    (get_cart bigDB "u").length = 1000 ∧
    (bigDB.cart_items.filter (fun c => c.user_id == "u" &&
      (bigDB.products.find? (fun p => p.id == c.product_id)).isSome)).length = 1001 := by
  have hmem : ∀ c ∈ bigCart, c.user_id = "u" ∧ c.product_id = "p" := by
    intro c hc
    simp only [bigCart, List.mem_map] at hc
    obtain ⟨k, -, rfl⟩ := hc
    exact ⟨rfl, rfl⟩
  have hlen : bigCart.length = 1001 := by
    simp [bigCart]
  constructor
  · have hfilter : bigDB.cart_items.filter (fun c => c.user_id == "u") = bigCart :=
      List.filter_eq_self.mpr (fun c hc => by simp [(hmem c hc).1])
    rw [get_cart, hfilter, length_filterMap_eq_countP, List.countP_eq_length.mpr]
    · rw [List.length_take, hlen]
      omega
    · intro c hc
      have hc' := hmem c (List.mem_of_mem_take hc)
      simp [bigDB, hc'.2]
  · have hfilter2 : bigDB.cart_items.filter (fun c => c.user_id == "u" &&
        (bigDB.products.find? (fun p => p.id == c.product_id)).isSome) =
        bigDB.cart_items :=
      List.filter_eq_self.mpr (fun c hc => by
        obtain ⟨h1, h2⟩ := hmem c hc
        simp [bigDB, h1, h2])
    rw [hfilter2]
    exact hlen

/-- C9 (amended): when the user owns at most 1000 cart items (so the
`to_list(1000)` fetch bound does not truncate), the cart listing contains
one `(cartItemId, quantity, product)` entry for each owned cart item whose
referenced product still exists, only such entries, and exactly as many
entries as there are such cart items; an owned cart item whose product id
no longer resolves is silently omitted rather than an error. -/
theorem C9_get_cart_join (db : DB) (u : String)
    (hlen : (db.cart_items.filter (fun c => c.user_id == u)).length ≤ 1000) :
    (∀ c ∈ db.cart_items, c.user_id = u →
      ∀ prod, db.products.find? (fun p => p.id == c.product_id) = some prod →
        (c.id, c.quantity, prod) ∈ get_cart db u) ∧
    (∀ entry ∈ get_cart db u, ∃ c, c ∈ db.cart_items ∧ c.user_id = u ∧
      ∃ prod, db.products.find? (fun p => p.id == c.product_id) = some prod ∧
        entry = (c.id, c.quantity, prod)) ∧
    (get_cart db u).length =
      (db.cart_items.filter (fun c => c.user_id == u &&
        (db.products.find? (fun p => p.id == c.product_id)).isSome)).length := by
  have htake : (db.cart_items.filter (fun c => c.user_id == u)).take 1000 =
      db.cart_items.filter (fun c => c.user_id == u) := List.take_of_length_le hlen
  refine ⟨?_, ?_, ?_⟩
  · intro c hc hcu prod hprod
    rw [get_cart, htake]
    exact List.mem_filterMap.mpr
      ⟨c, List.mem_filter.mpr ⟨hc, by simp [hcu]⟩, by rw [hprod]; rfl⟩
  · intro entry hentry
    rw [get_cart, htake] at hentry
    obtain ⟨c, hc, hfc⟩ := List.mem_filterMap.mp hentry
    have hc' := List.mem_filter.mp hc
    cases hfind : db.products.find? (fun p => p.id == c.product_id) with
    | none => rw [hfind] at hfc; cases hfc
    | some prod =>
      rw [hfind] at hfc
      rw [Option.map_some'] at hfc
      refine ⟨c, hc'.1, by simpa using hc'.2, prod, hfind, ?_⟩
      exact (Option.some.injEq _ _ ▸ hfc).symm
  · rw [get_cart, htake, length_filterMap_eq_countP,
      ← List.countP_eq_length_filter, List.countP_filter]
    refine List.countP_congr (fun c _ => ?_)
    simp [Bool.and_comm]

theorem C9_get_cart_join_witness :
    (get_cart ⟨[], [⟨"p1", "n", "d", 10, "u", "c", 5, 0⟩],
        [⟨"c1", "u1", "p1", 2, 0⟩, ⟨"c2", "u1", "gone", 1, 0⟩], []⟩ "u1").length =
      ((⟨[], [⟨"p1", "n", "d", 10, "u", "c", 5, 0⟩],
        [⟨"c1", "u1", "p1", 2, 0⟩, ⟨"c2", "u1", "gone", 1, 0⟩], []⟩ : DB).cart_items.filter
        (fun c => c.user_id == "u1" &&
          ((⟨[], [⟨"p1", "n", "d", 10, "u", "c", 5, 0⟩],
            [⟨"c1", "u1", "p1", 2, 0⟩, ⟨"c2", "u1", "gone", 1, 0⟩], []⟩ : DB).products.find?
            (fun p => p.id == c.product_id)).isSome)).length :=
  (C9_get_cart_join ⟨[], [⟨"p1", "n", "d", 10, "u", "c", 5, 0⟩],
    [⟨"c1", "u1", "p1", 2, 0⟩, ⟨"c2", "u1", "gone", 1, 0⟩], []⟩ "u1"
    (by decide)).2.2
